import Mathlib

/-! # Customer record lifecycle (src/controllers/customers.js)

A shallow embedding of the customer controller: the phone normaliser
`extractNumber`, the conflict checks of `makeNewRecord` and `updateCustomer`,
the identifier sequencer, the change-history handler and the delete handler,
over an in-memory model of the `customers` and `updates_customer` tables.
-/

namespace Customers

/-! ## JavaScript values of a text field -/

/-- A text field of a request body: missing (`undefined`), `null`, or a string. -/
inductive JSVal where
  | undefined
  | null
  | str (s : String)
deriving DecidableEq, Repr

/-- JavaScript truthiness, so that `!v` is `!(truthy v)`: the empty string,
`null` and `undefined` are falsy. -/
def JSVal.truthy : JSVal → Bool
  | .str s => !(s.data.isEmpty)
  | _ => false

/-- The method `String.prototype.slice(start)` with the end left out, on the list of
characters: a negative start counts from the end and is clamped at 0, a
positive one is clamped at the length. -/
def jsSlice (cs : List Char) (start : Int) : List Char :=
  let len : Int := cs.length
  let from_ : Int := if start < 0 then max (len + start) 0 else min start len
  cs.drop from_.toNat

/-- The call `s.replace(/\D/g, '')`: every character that is not one of `0`..`9` is
removed. -/
def removeNonDigits (cs : List Char) : List Char :=
  cs.filter Char.isDigit

/-- The function `extractNumber` of `updateCustomer` (lines 95-99). -/
def updateCustomer.extractNumber (number : JSVal) : String :=
  if !number.truthy then ""
  else
    match number with
    | .str s => String.mk (jsSlice (removeNonDigits s.data) (-10))
    | _ => ""

/-- The function `extractNumber` of `makeNewRecord` (lines 303-307). -/
def makeNewRecord.extractNumber (number : JSVal) : String :=
  if !number.truthy then ""
  else
    match number with
    | .str s =>
      let digitsOnly := removeNonDigits s.data
      String.mk (jsSlice digitsOnly (-10))
    | _ => ""

/-- The normaliser as the specification words it: the input with every
non-digit removed, cut to its last 10 characters, the whole of it when it has
fewer than 10; the empty string for an absent input. -/
def lastTenDigits : JSVal → String
  | .str s =>
    let ds := s.data.filter (fun c => decide ('0' ≤ c ∧ c ≤ '9'))
    if ds.length < 10 then String.mk ds else String.mk (ds.drop (ds.length - 10))
  | _ => ""

/-! ## JavaScript numbers and the identifier sequencer -/

/-- A JavaScript Number as the sequencer meets it: NaN, an infinity, or a
double that holds an integer. -/
inductive JSNum where
  | nan
  | inf (negative : Bool)
  | fin (z : Int)
deriving DecidableEq, Repr

/-- The least `e` with `n / 2 ^ e < 2 ^ 53`: how many low bits of `n` do not
fit the 53-bit significand of a double. The first argument is fuel. -/
def excessBits : Nat → Nat → Nat
  | 0, _ => 0
  | fuel + 1, n => if n < 2 ^ 53 then 0 else excessBits fuel (n / 2) + 1

/-- The natural number a double holds after rounding `n` to the nearest
representable value, ties to the even significand. A result of `2 ^ 1024` or
more stands for an overflow. -/
def roundDouble (n : Nat) : Nat :=
  let e := excessBits n n
  let q := n / 2 ^ e
  let r := n % 2 ^ e
  if 2 * r < 2 ^ e then q * 2 ^ e
  else if 2 ^ e < 2 * r then (q + 1) * 2 ^ e
  else if q % 2 = 0 then q * 2 ^ e else (q + 1) * 2 ^ e

/-- The Number value of a mathematical integer. -/
def toNumber (z : Int) : JSNum :=
  let m := roundDouble z.natAbs
  if 2 ^ 1024 ≤ m then .inf (decide (z < 0))
  else if z < 0 then .fin (-(m : Int)) else .fin m

/-- The expression `x + 1` on a Number. -/
def JSNum.addOne : JSNum → JSNum
  | .fin z => toNumber (z + 1)
  | x => x

/-- The search of `Number::toString` for the decimal `s * 10 ^ p` with the
fewest digits that reads back as the double `v`, the nearest to `v` when two
qualify; the second argument is the largest `p` still to try. -/
def shortestDecimal (v : Nat) : Nat → Nat × Nat
  | 0 => (v, 0)
  | p + 1 =>
    let lo := v / 10 ^ (p + 1)
    let hi := lo + 1
    let okLo := decide (1 ≤ lo) && decide (roundDouble (lo * 10 ^ (p + 1)) = v)
    let okHi := decide (roundDouble (hi * 10 ^ (p + 1)) = v)
    if okLo && okHi then
      let dLo := v - lo * 10 ^ (p + 1)
      let dHi := hi * 10 ^ (p + 1) - v
      if dLo < dHi then (lo, p + 1)
      else if dHi < dLo then (hi, p + 1)
      else if lo % 2 = 0 then (lo, p + 1) else (hi, p + 1)
    else if okLo then (lo, p + 1)
    else if okHi then (hi, p + 1)
    else shortestDecimal v p

/-- The text `Number::toString` gives for a double holding the natural number
`v`: its decimal digits below `2 ^ 53`, where every integer is a double; above,
the shortest digits that read back as `v`, followed by zeros up to 21 digits
and in exponent form beyond. -/
def natToString (v : Nat) : List Char :=
  if v < 2 ^ 53 then Nat.toDigits 10 v
  else
    let sp := shortestDecimal v (Nat.toDigits 10 v).length
    let ds := Nat.toDigits 10 sp.1
    let n := ds.length + sp.2
    if n ≤ 21 then ds ++ List.replicate sp.2 '0'
    else
      match ds with
      | [] => []
      | [d] => d :: 'e' :: '+' :: Nat.toDigits 10 (n - 1)
      | d :: rest => d :: '.' :: rest ++ 'e' :: '+' :: Nat.toDigits 10 (n - 1)

/-- The text a template literal gives for a Number. -/
def JSNum.toString : JSNum → List Char
  | .nan => ['N', 'a', 'N']
  | .inf false => "Infinity".data
  | .inf true => "-Infinity".data
  | .fin z => if z < 0 then '-' :: natToString z.natAbs else natToString z.natAbs

/-- The white space and line terminators that `parseInt` skips at the start. -/
def isJSWhiteSpace (c : Char) : Bool :=
  let n := c.toNat
  n == 0x9 || n == 0xA || n == 0xB || n == 0xC || n == 0xD || n == 0x20 || n == 0xA0
    || n == 0x1680 || (0x2000 ≤ n && n ≤ 0x200A) || n == 0x2028 || n == 0x2029
    || n == 0x202F || n == 0x205F || n == 0x3000 || n == 0xFEFF

/-- The value of a character as a digit of the given radix (10 or 16). -/
def digitValue (radix : Nat) (c : Char) : Option Nat :=
  let n := c.toNat
  if 48 ≤ n ∧ n ≤ 57 then some (n - 48)
  else if radix = 16 ∧ 97 ≤ n ∧ n ≤ 102 then some (n - 87)
  else if radix = 16 ∧ 65 ≤ n ∧ n ≤ 70 then some (n - 55)
  else none

/-- The longest prefix of digits of the radix, read as a number: the value so
far and whether a digit was seen. -/
def scanDigits (radix : Nat) : List Char → Nat → Bool → Nat × Bool
  | [], acc, seen => (acc, seen)
  | c :: cs, acc, seen =>
    match digitValue radix c with
    | some d => scanDigits radix cs (acc * radix + d) true
    | none => (acc, seen)

/-- The end of `parseInt`: the digits of the radix at the start of the text, as a
Number with the sign; NaN when there is no digit. -/
def parseDigits (negative : Bool) (radix : Nat) (ds : List Char) : JSNum :=
  match scanDigits radix ds 0 false with
  | (v, true) => toNumber (if negative then -(v : Int) else v)
  | (_, false) => .nan

/-- The part of `parseInt` after the sign: a `0x` or `0X` prefix selects radix
16, and the radix is 10 otherwise. -/
def parseUnsigned (negative : Bool) (cs : List Char) : JSNum :=
  match cs with
  | '0' :: 'x' :: rest => parseDigits negative 16 rest
  | '0' :: 'X' :: rest => parseDigits negative 16 rest
  | _ => parseDigits negative 10 cs

/-- The call `parseInt(x)` with no radix, on a string or on `undefined` (whose text
`undefined` holds no digit). -/
def parseInt : Option (List Char) → JSNum
  | none => .nan
  | some cs =>
    match cs.dropWhile isJSWhiteSpace with
    | '-' :: rest => parseUnsigned true rest
    | '+' :: rest => parseUnsigned false rest
    | rest => parseUnsigned false rest

/-- The call `s.split('_')`: the pieces of `s` between underscores. -/
def splitUnderscore : List Char → List (List Char)
  | [] => [[]]
  | c :: cs =>
    if c = '_' then [] :: splitUnderscore cs
    else
      match splitUnderscore cs with
      | [] => [[c]]
      | seg :: segs => (c :: seg) :: segs

/-- Lines 350-357 of `makeNewRecord`: the identifier that follows the
`C_unique_id` of the latest customer, `MC_1` when there is no customer. -/
def nextUniqueId : Option String → String
  | some lastUniqueId =>
    let lastNumericPart := parseInt ((splitUnderscore lastUniqueId.data).get? 1)
    String.mk ('M' :: 'C' :: '_' :: lastNumericPart.addOne.toString)
  | none => "MC_1"

/-- The identifier `MC_<n>`. -/
def mc (n : Nat) : String := String.mk ('M' :: 'C' :: '_' :: Nat.toDigits 10 n)

/-! ## The tables -/

/-- A row of the `customers` table. A text column holds `none` for SQL NULL.
The `last_updated` column, which no handler below reads, is left out. -/
structure Customer where
  id : Nat
  C_unique_id : Option String
  first_name : Option String
  middle_name : Option String
  last_name : Option String
  phone_no_primary : Option String
  whatsapp_num : Option String
  phone_no_secondary : Option String
  email_id : Option String
  gender : Option String
  address : Option String
  country : Option String
  company_name : Option String
  contact_type : Option String
  source : Option String
  disposition : Option String
  agent_name : Option String
  comment : Option String
  date_of_birth : Option String
deriving DecidableEq, Repr

/-- A row of the `updates_customer` table. -/
structure AuditRow where
  customer_id : Nat
  C_unique_id : Option String
  field : Option String
  old_value : Option String
  new_value : Option String
  changed_at : Nat
deriving DecidableEq, Repr

/-- Modelled from the spec: the table declarations are not part of the
sources. The store holds the rows of the two tables in insertion order and the
counter from which storage assigns the internal id of the next customer
(section 3: internal numeric id, storage-assigned, immutable). The columns
carry no further constraint. -/
structure Store where
  customers : List Customer
  updates_customer : List AuditRow
  nextId : Nat
deriving DecidableEq, Repr

/-- What the handlers take from their surroundings: the equality of the
collation of the text columns, which the table declarations fix, and the
calendar date `new Date(s).toISOString().split('T')[0]` makes of a string,
`none` when the date is invalid and `toISOString` throws. -/
structure Env where
  coll : String → String → Bool
  isoDate : String → Option String

/-- The value a query parameter binds: `undefined` and `null` bind NULL. -/
def JSVal.toSql : JSVal → Option String
  | .str s => some s
  | _ => none

/-- The SQL comparison `a = b` in a WHERE clause: a comparison with NULL is not
true. -/
def sqlEq (env : Env) (a b : Option String) : Bool :=
  match a, b with
  | some x, some y => env.coll x y
  | _, _ => false

/-- The SQL function `SUBSTRING(str, pos)`: the characters from position `pos`,
counted from 1, to the end; a negative `pos` counts from the end; the empty
string when `pos` is 0 or lies outside the string. -/
def sqlSubstring (cs : List Char) (pos : Int) : List Char :=
  let start : Int := if pos < 0 then (cs.length : Int) + pos else pos - 1
  if start < 0 ∨ (cs.length : Int) ≤ start then [] else cs.drop start.toNat

/-- The SQL expression `SUBSTRING(col, LENGTH(col) - 9)`; `LENGTH` counts the bytes
of the UTF-8 text. NULL gives NULL. -/
def sqlLastTen : Option String → Option String
  | some s => some (String.mk (sqlSubstring s.data ((s.utf8ByteSize : Int) - 9)))
  | none => none

/-- The comparison `record.col === key` of a selected column, `null` or a string,
with a string. -/
def colEqStr (col : Option String) (key : String) : Bool :=
  match col with
  | some s => decide (s = key)
  | none => false

/-- The comparison `record.col === v` of a selected column, `null` or a string, with
a field of the request. -/
def colEqVal (col : Option String) (v : JSVal) : Bool :=
  match col, v with
  | some s, .str t => decide (s = t)
  | none, .null => true
  | _, _ => false

/-- The body of the `forEach` over the rows the conflict query returned: the
messages one row adds. -/
def rowMessages (primaryNum whatsappNum : String) (email_id : JSVal) (record : Customer) :
    List String :=
  (if colEqStr record.phone_no_primary primaryNum
    then ["The phone number in the Primary field is already in use!!"] else [])
  ++ (if colEqStr record.whatsapp_num whatsappNum
    then ["The phone number in the Whatsapp field is already in use!!"] else [])
  ++ (if colEqVal record.email_id email_id
    then ["The email address is already in use!!"] else [])

/-- The messages of all the rows, in the order of the rows. -/
def conflictMessages (primaryNum whatsappNum : String) (email_id : JSVal)
    (records : List Customer) : List String :=
  (records.map (rowMessages primaryNum whatsappNum email_id)).flatten

/-- The answers of the handlers, with their status codes. -/
inductive Response where
  | conflict (errors : List String)
  | created (C_unique_id : String)
  | updated
  | notFound
  | invalid
  | history (changeHistory : List AuditRow)
  | deleted
  | serverError
deriving DecidableEq, Repr

/-- The HTTP status of an answer. -/
def Response.status : Response → Nat
  | .conflict _ => 409
  | .created _ => 201
  | .updated => 200
  | .notFound => 404
  | .invalid => 400
  | .history _ => 200
  | .deleted => 200
  | .serverError => 500

/-! ## makeNewRecord -/

/-- The body of a create request (lines 289-293). -/
structure NewRecordBody where
  first_name : JSVal
  last_name : JSVal
  phone_no_primary : JSVal
  email_id : JSVal
  date_of_birth : JSVal
  address : JSVal
  company_name : JSVal
  contact_type : JSVal
  source : JSVal
  disposition : JSVal
  agent_name : JSVal
  whatsapp_num : JSVal
  phone_no_secondary : JSVal
  country : JSVal
  middle_name : JSVal
  gender : JSVal
  comment : JSVal
deriving DecidableEq, Repr

/-- The WHERE clause of the conflict query of `makeNewRecord` (line 318):
`phone_no_primary = ? OR whatsapp_num = ? OR email_id = ?`. -/
def makeNewRecord.existWhere (env : Env) (primaryNum whatsappNum : String) (email_id : JSVal)
    (r : Customer) : Bool :=
  sqlEq env r.phone_no_primary (some primaryNum)
    || sqlEq env r.whatsapp_num (some whatsappNum)
    || sqlEq env r.email_id email_id.toSql

/-- The rows the conflict query of `makeNewRecord` returns. -/
def makeNewRecord.existRecords (env : Env) (st : Store) (body : NewRecordBody) : List Customer :=
  st.customers.filter (makeNewRecord.existWhere env
    (makeNewRecord.extractNumber body.phone_no_primary)
    (makeNewRecord.extractNumber body.whatsapp_num) body.email_id)

/-- The error list of `makeNewRecord` at line 337: the validation message, when
the primary phone is falsy, followed by the conflict messages. -/
def makeNewRecord.errors (env : Env) (st : Store) (body : NewRecordBody) : List String :=
  (if !body.phone_no_primary.truthy then ["Primary phone number is required."] else [])
  ++ conflictMessages (makeNewRecord.extractNumber body.phone_no_primary)
      (makeNewRecord.extractNumber body.whatsapp_num) body.email_id
      (makeNewRecord.existRecords env st body)

/-- The query `SELECT ... ORDER BY id DESC LIMIT 1`: the row with the highest id. -/
def latestCustomer (cs : List Customer) : Option Customer :=
  cs.foldl (fun best c =>
    match best with
    | none => some c
    | some b => if b.id < c.id then some c else some b) none

/-- The row the INSERT of `makeNewRecord` adds (lines 362-374): the fields as
submitted, `undefined` stored as NULL. -/
def makeNewRecord.newRow (id : Nat) (nextUniqueId : String) (formattedDOB : Option String)
    (body : NewRecordBody) : Customer :=
  { id := id
    C_unique_id := some nextUniqueId
    first_name := body.first_name.toSql
    middle_name := body.middle_name.toSql
    last_name := body.last_name.toSql
    phone_no_primary := body.phone_no_primary.toSql
    whatsapp_num := body.whatsapp_num.toSql
    phone_no_secondary := body.phone_no_secondary.toSql
    email_id := body.email_id.toSql
    gender := body.gender.toSql
    address := body.address.toSql
    country := body.country.toSql
    company_name := body.company_name.toSql
    contact_type := body.contact_type.toSql
    source := body.source.toSql
    disposition := body.disposition.toSql
    agent_name := body.agent_name.toSql
    comment := body.comment.toSql
    date_of_birth := formattedDOB }

/-- Line 360: the calendar date of the date of birth, `null` when it is
falsy; `none` when `toISOString` throws on an invalid date. -/
def formattedDOB (env : Env) (date_of_birth : JSVal) : Option (Option String) :=
  if date_of_birth.truthy then
    match date_of_birth with
    | .str s => (env.isoDate s).map some
    | _ => some none
  else some none

/-- Lines 342-357: the next identifier, from the latest customer; `none` when
`lastUniqueId.split` throws on the `null` of a NULL column. -/
def fetchNextUniqueId (st : Store) : Option String :=
  match latestCustomer st.customers with
  | some latest =>
    match latest.C_unique_id with
    | some lastUniqueId => some (nextUniqueId (some lastUniqueId))
    | none => none
  | none => some (nextUniqueId none)

/-- The store after the INSERT of `makeNewRecord`: storage gives the new row
the next internal id. -/
def Store.insertCustomer (st : Store) (nextUniqueId : String) (formattedDOB : Option String)
    (body : NewRecordBody) : Store :=
  { st with
    customers := st.customers ++ [makeNewRecord.newRow st.nextId nextUniqueId formattedDOB body]
    nextId := st.nextId + 1 }

/-- The handler `makeNewRecord` (lines 284-381): the answer and the store
after the call. Every thrown error ends in the `catch` with status 500. -/
def makeNewRecord (env : Env) (st : Store) (body : NewRecordBody) : Response × Store :=
  let errors := makeNewRecord.errors env st body
  if !errors.isEmpty then (.conflict errors, st)
  else
    match fetchNextUniqueId st with
    | none => (.serverError, st)
    | some nextUniqueId =>
      match formattedDOB env body.date_of_birth with
      | none => (.serverError, st)
      | some dob => (.created nextUniqueId, st.insertCustomer nextUniqueId dob body)

/-! ## updateCustomer -/

/-- The body of an update request (lines 79-85). -/
structure UpdateBody where
  first_name : JSVal
  middle_name : JSVal
  last_name : JSVal
  phone_no_primary : JSVal
  whatsapp_num : JSVal
  phone_no_secondary : JSVal
  email_id : JSVal
  gender : JSVal
  address : JSVal
  country : JSVal
  company_name : JSVal
  contact_type : JSVal
  source : JSVal
  disposition : JSVal
  agent_name : JSVal
  comment : JSVal
deriving DecidableEq, Repr

/-- Lines 91-92: the gender when it is one of the three allowed values,
`male` otherwise. -/
def validatedGender (gender : JSVal) : JSVal :=
  if [JSVal.str "male", JSVal.str "female", JSVal.str "other"].contains gender
  then gender else .str "male"

/-- The part of the WHERE clause of the conflict query of `updateCustomer`
before the exclusion of the target (lines 110-112). -/
def updateCustomer.collides (env : Env) (primaryNum whatsappNum : String) (email_id : JSVal)
    (r : Customer) : Bool :=
  sqlEq env (sqlLastTen r.phone_no_primary) (some primaryNum)
    || sqlEq env (sqlLastTen r.whatsapp_num) (some whatsappNum)
    || sqlEq env r.email_id email_id.toSql

/-- The rows the conflict query of `updateCustomer` returns (lines 106-114):
the colliding rows `AND id != ?`. The route parameter is taken as the number
the comparison with the `id` column reads it as. -/
def updateCustomer.existingRecords (env : Env) (st : Store) (id : Nat) (body : UpdateBody) :
    List Customer :=
  st.customers.filter (fun r =>
    updateCustomer.collides env (updateCustomer.extractNumber body.phone_no_primary)
      (updateCustomer.extractNumber body.whatsapp_num) body.email_id r
    && decide (r.id ≠ id))

/-- The error list of `updateCustomer` at line 133. -/
def updateCustomer.errors (env : Env) (st : Store) (id : Nat) (body : UpdateBody) :
    List String :=
  conflictMessages (updateCustomer.extractNumber body.phone_no_primary)
    (updateCustomer.extractNumber body.whatsapp_num) body.email_id
    (updateCustomer.existingRecords env st id body)

/-- One entry of `params` (lines 150-165): `x !== undefined ? x : null`. -/
def orNull (v : JSVal) : JSVal :=
  if v ≠ JSVal.undefined then v else .null

/-- The sixteen values of `params` before the id (lines 149-166), under the
names of the columns they are written to. -/
def updateCustomer.params (body : UpdateBody) : UpdateBody :=
  { first_name := orNull body.first_name
    middle_name := orNull body.middle_name
    last_name := orNull body.last_name
    phone_no_primary := orNull body.phone_no_primary
    whatsapp_num := orNull body.whatsapp_num
    phone_no_secondary := orNull body.phone_no_secondary
    email_id := orNull body.email_id
    gender := validatedGender body.gender
    address := orNull body.address
    country := orNull body.country
    company_name := orNull body.company_name
    contact_type := orNull body.contact_type
    source := orNull body.source
    disposition := orNull body.disposition
    agent_name := orNull body.agent_name
    comment := orNull body.comment }

/-- The statement `UPDATE customers SET ... WHERE id = ?` on one row (lines 138-146). -/
def updateCustomer.setRow (id : Nat) (p : UpdateBody) (r : Customer) : Customer :=
  if r.id = id then
    { r with
      first_name := p.first_name.toSql
      middle_name := p.middle_name.toSql
      last_name := p.last_name.toSql
      phone_no_primary := p.phone_no_primary.toSql
      whatsapp_num := p.whatsapp_num.toSql
      phone_no_secondary := p.phone_no_secondary.toSql
      email_id := p.email_id.toSql
      gender := p.gender.toSql
      address := p.address.toSql
      country := p.country.toSql
      company_name := p.company_name.toSql
      contact_type := p.contact_type.toSql
      source := p.source.toSql
      disposition := p.disposition.toSql
      agent_name := p.agent_name.toSql
      comment := p.comment.toSql }
  else r

/-- The store after the UPDATE of `updateCustomer` (line 175). -/
def Store.updateRows (st : Store) (id : Nat) (params : UpdateBody) : Store :=
  { st with customers := st.customers.map (updateCustomer.setRow id params) }

/-- The handler `updateCustomer` (lines 77-187): the answer and the store
after the call. `affectedRows` counts the rows the WHERE clause found. -/
def updateCustomer (env : Env) (st : Store) (id : Nat) (body : UpdateBody) :
    Response × Store :=
  let errors := updateCustomer.errors env st id body
  if !errors.isEmpty then (.conflict errors, st)
  else
    let params := updateCustomer.params body
    let st2 := st.updateRows id params
    let affectedRows := (st.customers.filter (fun r => decide (r.id = id))).length
    if affectedRows = 0 then (.notFound, st2) else (.updated, st2)

/-! ## historyCustomer -/

/-- The `customerId` of a history request: missing, `null`, or a number. -/
inductive IdVal where
  | undefined
  | null
  | num (n : Nat)
deriving DecidableEq, Repr

/-- JavaScript truthiness of an id: 0 is falsy. -/
def IdVal.truthy : IdVal → Bool
  | .num n => decide (n ≠ 0)
  | _ => false

/-- One element of the `changes` array as the destructuring at line 194 sees
it: `null` or `undefined`, on which it throws, or a value with its three
properties, each `undefined` when missing. -/
inductive Change where
  | nullish
  | tuple (field old_value new_value : JSVal)
deriving DecidableEq, Repr

/-- The `changes` of a history request: an array or any other value. -/
inductive ChangesVal where
  | notArray
  | array (items : List Change)
deriving DecidableEq, Repr

/-- The body of a history request (line 230). -/
structure HistoryBody where
  customerId : IdVal
  C_unique_id : JSVal
  changes : ChangesVal
deriving DecidableEq, Repr

/-- The expression `v || null`. -/
def orElseNull (v : JSVal) : JSVal :=
  if v.truthy then v else .null

/-- The function `insertChangeLog` (lines 192-211): one INSERT per change, in order,
the `i`-th stamped with the time `now i`. The result is `none`, with the
rows written so far, when an element cannot be destructured or when
`execute` refuses an `undefined` parameter. -/
def insertChangeLog (updates : List AuditRow) (customerId : Nat) (C_unique_id : JSVal)
    (now : Nat → Nat) : List Change → Nat → Bool × List AuditRow
  | [], _ => (true, updates)
  | .nullish :: _, _ => (false, updates)
  | .tuple field old_value new_value :: rest, i =>
    if field = JSVal.undefined ∨ C_unique_id = JSVal.undefined then (false, updates)
    else
      insertChangeLog
        (updates ++ [{ customer_id := customerId
                       C_unique_id := C_unique_id.toSql
                       field := field.toSql
                       old_value := (orElseNull old_value).toSql
                       new_value := (orElseNull new_value).toSql
                       changed_at := now i }])
        customerId C_unique_id now rest (i + 1)

/-- The function `getChangeHistory` (lines 216-224): the rows of one customer, the
latest first. -/
def getChangeHistory (updates : List AuditRow) (customerId : Nat) : List AuditRow :=
  (updates.filter (fun u => decide (u.customer_id = customerId))).insertionSort
    (fun a b => b.changed_at ≤ a.changed_at)

/-- The test `Array.isArray(changes)`. -/
def ChangesVal.isArray : ChangesVal → Bool
  | .array _ => true
  | .notArray => false

/-- The handler `historyCustomer` (lines 229-254). -/
def historyCustomer (st : Store) (now : Nat → Nat) (body : HistoryBody) : Response × Store :=
  if !body.customerId.truthy || !body.C_unique_id.truthy || !body.changes.isArray then
    (.invalid, st)
  else
    match body.customerId, body.changes with
    | .num n, .array items =>
      match insertChangeLog st.updates_customer n body.C_unique_id now items 0 with
      | (true, updates) =>
        (.history (getChangeHistory updates n), { st with updates_customer := updates })
      | (false, updates) => (.serverError, { st with updates_customer := updates })
    | _, _ => (.invalid, st)

/-! ## deleteCustomer -/

/-- The function `deleteCustomerUpdates` (lines 409-415). -/
def deleteCustomerUpdates (st : Store) (customerId : Nat) : Store :=
  { st with
    updates_customer := st.updates_customer.filter (fun u => !decide (u.customer_id = customerId)) }

/-- The function `deleteCustomerRecord` (lines 418-424). -/
def deleteCustomerRecord (st : Store) (customerId : Nat) : Store :=
  { st with customers := st.customers.filter (fun c => !decide (c.id = customerId)) }

/-- The handler `deleteCustomer` (lines 427-448). The route parameter is `none`
when it is not a number (`isNaN`), and the number otherwise. -/
def deleteCustomer (st : Store) (customerId : Option Nat) : Response × Store :=
  match customerId with
  | none => (.invalid, st)
  | some id => (.deleted, deleteCustomerRecord (deleteCustomerUpdates st id) id)

/-- The handler `deleteCustomer` (lines 427-448) on a storage that can fail:
`ok 0` tells whether the first DELETE, on `updates_customer`, is carried out,
and `ok 1` whether the second, on `customers`, is; a failed statement throws,
the statements after it are not run, and the `catch` answers 500. -/
def deleteCustomerWith (ok : Nat → Bool) (st : Store) (customerId : Option Nat) :
    Response × Store :=
  match customerId with
  | none => (.invalid, st)
  | some id =>
    if !ok 0 then (.serverError, st)
    else
      let st1 := deleteCustomerUpdates st id
      if !ok 1 then (.serverError, st1)
      else (.deleted, deleteCustomerRecord st1 id)

/-! ## Sequences of calls and worked inputs -/

/-- The value of a decimal digit character. -/
def decimalDigit (c : Char) : Option Nat :=
  if c.isDigit then some (c.toNat - 48) else none

/-- The number of days of a month of the Gregorian calendar. -/
def daysInMonth (year month : Nat) : Nat :=
  if month = 2 then
    (if (year % 4 = 0 ∧ year % 100 ≠ 0) ∨ year % 400 = 0 then 29 else 28)
  else if month = 4 ∨ month = 6 ∨ month = 9 ∨ month = 11 then 30
  else 31

/-- The date `new Date(s).toISOString().split('T')[0]` gives for a text of the
date-only form `YYYY-MM-DD`, as V8 reads it: the date is taken in UTC, a month
outside 1..12 or a day outside 1..31 makes the date invalid (`none`), and a
day past the end of the month counts on into the next month. Texts of any
other form are read by rules that depend on the implementation and on the
time zone of the server; they are not modelled and are given as invalid. -/
def isoDateOnly (s : String) : Option String :=
  match s.data with
  | [y1, y2, y3, y4, '-', m1, m2, '-', d1, d2] =>
    match decimalDigit y1, decimalDigit y2, decimalDigit y3, decimalDigit y4,
      decimalDigit m1, decimalDigit m2, decimalDigit d1, decimalDigit d2 with
    | some a, some b, some c, some d, some e, some f, some g, some h =>
      let year := 1000 * a + 100 * b + 10 * c + d
      let month := 10 * e + f
      let day := 10 * g + h
      if 1 ≤ month ∧ month ≤ 12 ∧ 1 ≤ day ∧ day ≤ 31 then
        if day ≤ daysInMonth year month then some s
        else
          some (String.mk [y1, y2, y3, y4, '-',
            Nat.digitChar ((month + 1) / 10), Nat.digitChar ((month + 1) % 10), '-',
            '0', Nat.digitChar (day - daysInMonth year month)])
      else none
    | _, _, _, _, _, _, _, _ => none
  | _ => none

/-- A surrounding for the worked inputs: a collation that compares texts
exactly, and dates of birth given in the date-only form. -/
def binaryEnv : Env :=
  { coll := fun a b => decide (a = b)
    isoDate := isoDateOnly }

/-- The store with no rows; storage numbers the first customer 1. -/
def emptyStore : Store :=
  { customers := [], updates_customer := [], nextId := 1 }

/-- A create request with no field at all. -/
def noFields : NewRecordBody :=
  { first_name := .undefined, last_name := .undefined, phone_no_primary := .undefined
    email_id := .undefined, date_of_birth := .undefined, address := .undefined
    company_name := .undefined, contact_type := .undefined, source := .undefined
    disposition := .undefined, agent_name := .undefined, whatsapp_num := .undefined
    phone_no_secondary := .undefined, country := .undefined, middle_name := .undefined
    gender := .undefined, comment := .undefined }

/-- An update request with no field at all. -/
def noUpdateFields : UpdateBody :=
  { first_name := .undefined, middle_name := .undefined, last_name := .undefined
    phone_no_primary := .undefined, whatsapp_num := .undefined
    phone_no_secondary := .undefined, email_id := .undefined, gender := .undefined
    address := .undefined, country := .undefined, company_name := .undefined
    contact_type := .undefined, source := .undefined, disposition := .undefined
    agent_name := .undefined, comment := .undefined }

/-- The create request of the end-to-end example of the specification. -/
def annBody : NewRecordBody :=
  { noFields with first_name := .str "Ann", phone_no_primary := .str "+91 98765-43210" }

/-- The store after the create of the end-to-end example on the empty store:
one customer, `MC_1`, with primary phone `+91 98765-43210`. -/
def annStore : Store := (makeNewRecord binaryEnv emptyStore annBody).2

/-- A store with two customers, made by two creates on the empty store: id 1
with primary phone `+919876543210`, id 2 with primary phone `5550001111`. -/
def twoStore : Store :=
  (makeNewRecord binaryEnv
    (makeNewRecord binaryEnv emptyStore
      { noFields with phone_no_primary := .str "+919876543210" }).2
    { noFields with phone_no_primary := .str "5550001111" }).2

/-- A store with two customers whose stored phones are plain ten-digit
numbers, made by two creates on the empty store: id 1 with primary phone
`9876543210`, WhatsApp number `9123456780` and an email, id 2 with primary phone
`5550001111` and a comment. -/
def plainStore : Store :=
  (makeNewRecord binaryEnv
    (makeNewRecord binaryEnv emptyStore
      { noFields with
        phone_no_primary := .str "9876543210", whatsapp_num := .str "9123456780"
        email_id := .str "ann@example.com" }).2
    { noFields with phone_no_primary := .str "5550001111", comment := .str "call back" }).2

/-- The fifteen fields of an update request other than the gender, in the
order of the claim: names, phones, email, address, country, company name,
contact type, source, disposition, agent name, comment. -/
def UpdateBody.textFields (b : UpdateBody) : List JSVal :=
  [b.first_name, b.middle_name, b.last_name, b.phone_no_primary, b.whatsapp_num,
    b.phone_no_secondary, b.email_id, b.address, b.country, b.company_name, b.contact_type,
    b.source, b.disposition, b.agent_name, b.comment]

/-- The same fifteen columns of a customer row. -/
def Customer.textFields (c : Customer) : List (Option String) :=
  [c.first_name, c.middle_name, c.last_name, c.phone_no_primary, c.whatsapp_num,
    c.phone_no_secondary, c.email_id, c.address, c.country, c.company_name, c.contact_type,
    c.source, c.disposition, c.agent_name, c.comment]

/-- A store whose only customer has the `C_unique_id` numbered `2 ^ 53`. -/
def bigStore : Store :=
  { customers := [makeNewRecord.newRow 1 "MC_9007199254740992" none annBody]
    updates_customer := []
    nextId := 2 }

/-- A call of one of the two handlers that add and remove customers. -/
inductive Call where
  | create (body : NewRecordBody)
  | delete (customerId : Option Nat)
deriving DecidableEq, Repr

/-- One call on the store. -/
def step (env : Env) (st : Store) : Call → Response × Store
  | .create body => makeNewRecord env st body
  | .delete customerId => deleteCustomer st customerId

/-- A sequence of calls, one after the other: the answers in order and the
store at the end. -/
def run (env : Env) (st : Store) : List Call → List Response × Store
  | [] => ([], st)
  | c :: cs =>
    let r := step env st c
    let rest := run env r.2 cs
    (r.1 :: rest.1, rest.2)

/-- The identifiers the successful creates among the answers assigned. -/
def assigned : List Response → List String
  | [] => []
  | .created x :: rs => x :: assigned rs
  | _ :: rs => assigned rs

/-- Two customers in the order of their creation: the later one has the larger
internal id and the larger number in its `C_unique_id`. -/
def Before (a b : Customer) : Prop :=
  a.id < b.id ∧ ∃ i j : Nat, i < j ∧ a.C_unique_id = some (mc i) ∧ b.C_unique_id = some (mc j)

/-- The customers of a store are in the order of their creation, their
internal ids lie below the counter of the store, and the numbers of their
identifiers are at most `m`. -/
def Sequenced (st : Store) (m : Nat) : Prop :=
  st.customers.Pairwise Before
  ∧ ∀ c ∈ st.customers, c.id < st.nextId ∧ ∃ k : Nat, k ≤ m ∧ c.C_unique_id = some (mc k)

/-- The two-customer store after one history request for customer 2: one
audit row, for its comment. -/
def historyStore : Store :=
  (historyCustomer plainStore (fun i => i)
    { customerId := .num 2, C_unique_id := .str "MC_2"
      changes := .array [.tuple (.str "comment") .null (.str "call back")] }).2

/-- The decimal digits of a natural number, most significant first. -/
def decDigits (n : Nat) : List Char :=
  if n < 10 then [Nat.digitChar n] else decDigits (n / 10) ++ [Nat.digitChar (n % 10)]
decreasing_by omega

/-! ## Theorems -/

theorem isDigit_iff (c : Char) : c.isDigit = true ↔ '0' ≤ c ∧ c ≤ '9' := by
  simp [Char.isDigit, Char.le_def, UInt32.le_def]

theorem removeNonDigits_eq (cs : List Char) :
    removeNonDigits cs = cs.filter (fun c => decide ('0' ≤ c ∧ c ≤ '9')) := by
  unfold removeNonDigits
  congr 1
  funext c
  by_cases h : c.isDigit = true
  · rw [h]; exact (decide_eq_true ((isDigit_iff c).1 h)).symm
  · have h2 : ¬ ('0' ≤ c ∧ c ≤ '9') := fun hc => h ((isDigit_iff c).2 hc)
    rw [Bool.not_eq_true] at h
    rw [h]; exact (decide_eq_false h2).symm

theorem jsSlice_neg_ten (cs : List Char) :
    jsSlice cs (-10) = if cs.length < 10 then cs else cs.drop (cs.length - 10) := by
  unfold jsSlice
  simp only [show ((-10 : Int) < 0) = True from by simp, if_true]
  split
  · rename_i h
    have : max ((cs.length : Int) + -10) 0 = 0 := by omega
    rw [this]; rfl
  · rename_i h
    have : (max ((cs.length : Int) + -10) 0).toNat = cs.length - 10 := by omega
    rw [this]

theorem extractNumber_str (s : String) :
    makeNewRecord.extractNumber (.str s) = lastTenDigits (.str s) := by
  unfold makeNewRecord.extractNumber lastTenDigits JSVal.truthy
  by_cases h : s.data = []
  · simp [h]
  · have h2 : s.data.isEmpty = false := by
      cases hd : s.data with
      | nil => exact absurd hd h
      | cons a l => rfl
    simp only [h2, Bool.not_false, Bool.not_true, Bool.false_eq_true, if_false]
    rw [jsSlice_neg_ten, removeNonDigits_eq]
    split <;> rfl

theorem extractNumber_same (v : JSVal) :
    updateCustomer.extractNumber v = makeNewRecord.extractNumber v := by
  cases v <;> rfl

theorem lastTenDigits_length (v : JSVal) : (lastTenDigits v).length ≤ 10 := by
  cases v with
  | undefined => simp [lastTenDigits]
  | null => simp [lastTenDigits]
  | str s =>
    simp only [lastTenDigits]
    split
    · rename_i h; simpa [String.length] using Nat.le_of_lt h
    · simp only [String.length, List.length_drop]; omega

theorem lastTenDigits_digits (v : JSVal) :
    ∀ c ∈ (lastTenDigits v).data, '0' ≤ c ∧ c ≤ '9' := by
  cases v with
  | undefined => simp [lastTenDigits]
  | null => simp [lastTenDigits]
  | str s =>
    intro c hc
    simp only [lastTenDigits] at hc
    have hmem : c ∈ s.data.filter (fun c => decide ('0' ≤ c ∧ c ≤ '9')) := by
      split at hc
      · exact hc
      · exact List.mem_of_mem_drop hc
    simpa using (List.mem_filter.1 hmem).2

/-- C1: for every input string `s`, both copies of `extractNumber` return the
same string, which has at most 10 characters, all of them digits `0`..`9`, and
is the digit-filtered input cut to its last 10 characters (the whole of it
when it has fewer than 10); `null`, `undefined` and the empty string give the
empty string. -/
theorem extractNumber_last_ten_digits (s : String) :
    updateCustomer.extractNumber (.str s) = makeNewRecord.extractNumber (.str s)
    ∧ makeNewRecord.extractNumber (.str s) = lastTenDigits (.str s)
    ∧ (makeNewRecord.extractNumber (.str s)).length ≤ 10
    ∧ (∀ c ∈ (makeNewRecord.extractNumber (.str s)).data, '0' ≤ c ∧ c ≤ '9')
    ∧ updateCustomer.extractNumber .null = "" ∧ makeNewRecord.extractNumber .null = ""
    ∧ updateCustomer.extractNumber .undefined = ""
    ∧ makeNewRecord.extractNumber .undefined = ""
    ∧ updateCustomer.extractNumber (.str "") = ""
    ∧ makeNewRecord.extractNumber (.str "") = "" := by
  refine ⟨extractNumber_same _, extractNumber_str s, ?_, ?_, rfl, rfl, rfl, rfl, rfl, rfl⟩
  · rw [extractNumber_str]; exact lastTenDigits_length _
  · rw [extractNumber_str]; exact lastTenDigits_digits _

/-! ### The conflict checks -/

set_option exponentiation.threshold 1100 in
/-- C2 (the code at the failing input): with `+91 98765-43210` stored as the
primary phone of the only customer, a create with primary phone `9876543210`,
which normalises to the same key, is not rejected: it is answered 201 with
`MC_2` and a second row is inserted. The same request as the first one, with
the very same phone, is accepted as well. -/
theorem makeNewRecord_same_key_created :
    makeNewRecord.extractNumber (.str "+91 98765-43210")
      = makeNewRecord.extractNumber (.str "9876543210")
    ∧ annStore.customers.map (fun c => c.phone_no_primary) = [some "+91 98765-43210"]
    ∧ (makeNewRecord binaryEnv annStore
        { noFields with phone_no_primary := .str "9876543210" }).1 = .created "MC_2"
    ∧ ((makeNewRecord binaryEnv annStore
        { noFields with phone_no_primary := .str "9876543210" }).2.customers.map
          (fun c => c.phone_no_primary)) = [some "+91 98765-43210", some "9876543210"]
    ∧ (makeNewRecord binaryEnv annStore annBody).1 = .created "MC_2" := by
  decide

set_option exponentiation.threshold 1100 in
/-- C3 (the code at the failing input): customer 1 has the primary phone
`+919876543210`; an update of customer 2 with primary phone `9876543210` makes
the conflict query return the row of customer 1, the loop adds no message for
it, and the update is carried out and answered 200. -/
theorem updateCustomer_row_without_message :
    (updateCustomer.existingRecords binaryEnv twoStore 2
        { noUpdateFields with phone_no_primary := .str "9876543210" }).map (fun c => c.id) = [1]
    ∧ updateCustomer.errors binaryEnv twoStore 2
        { noUpdateFields with phone_no_primary := .str "9876543210" } = []
    ∧ (updateCustomer binaryEnv twoStore 2
        { noUpdateFields with phone_no_primary := .str "9876543210" }).1 = .updated
    ∧ (updateCustomer binaryEnv twoStore 2
        { noUpdateFields with phone_no_primary := .str "9876543210" }).2.customers.map
          (fun c => c.phone_no_primary) = [some "+919876543210", some "9876543210"] := by
  decide

theorem conflictMessages_nil (p w : String) (e : JSVal) : conflictMessages p w e [] = [] := rfl

theorem existingRecords_eq_nil (env : Env) (st : Store) (id : Nat) (body : UpdateBody)
    (h : ∀ r ∈ st.customers, r.id ≠ id →
      updateCustomer.collides env (updateCustomer.extractNumber body.phone_no_primary)
        (updateCustomer.extractNumber body.whatsapp_num) body.email_id r = false) :
    updateCustomer.existingRecords env st id body = [] := by
  unfold updateCustomer.existingRecords
  rw [List.filter_eq_nil_iff]
  intro r hr
  by_cases hid : r.id = id
  · simp [hid]
  · simp [h r hr hid]

/-- C4: when no customer other than the target collides with the request
(primary-phone suffix, WhatsApp suffix or email, as the conflict query tests
them), `updateCustomer` called with the id of the target, a row of the store,
has an empty conflict list, carries out the UPDATE on the rows with that id
and answers 200, whatever the target itself holds. -/
theorem updateCustomer_no_self_conflict (env : Env) (st : Store) (id : Nat) (body : UpdateBody)
    (target : Customer) (hmem : target ∈ st.customers) (hid : target.id = id)
    (hothers : ∀ r ∈ st.customers, r.id ≠ id →
      updateCustomer.collides env (updateCustomer.extractNumber body.phone_no_primary)
        (updateCustomer.extractNumber body.whatsapp_num) body.email_id r = false) :
    updateCustomer.errors env st id body = []
    ∧ updateCustomer env st id body
      = (.updated, st.updateRows id (updateCustomer.params body)) := by
  have herr : updateCustomer.errors env st id body = [] := by
    unfold updateCustomer.errors
    rw [existingRecords_eq_nil env st id body hothers]
    rfl
  refine ⟨herr, ?_⟩
  have hcount : (st.customers.filter (fun r => decide (r.id = id))).length ≠ 0 := by
    intro h0
    have hnil := List.length_eq_zero.1 h0
    rw [List.filter_eq_nil_iff] at hnil
    exact hnil target hmem (by simp [hid])
  unfold updateCustomer
  simp only [herr, List.isEmpty_nil, Bool.not_true, Bool.false_eq_true, if_false, hcount]

set_option exponentiation.threshold 1100 in
/-- C4 (witness): customer 2 of the two-customer store, updated with its own primary phone
`5550001111`, collides with itself only: the update is carried out. -/
theorem updateCustomer_no_self_conflict_witness :
    updateCustomer.collides binaryEnv "5550001111" "" .undefined
        (makeNewRecord.newRow 2 "MC_2" none
          { noFields with phone_no_primary := .str "5550001111" }) = true
    ∧ updateCustomer.errors binaryEnv twoStore 2
        { noUpdateFields with phone_no_primary := .str "5550001111" } = []
    ∧ updateCustomer binaryEnv twoStore 2
        { noUpdateFields with phone_no_primary := .str "5550001111" }
      = (.updated, twoStore.updateRows 2 (updateCustomer.params
          { noUpdateFields with phone_no_primary := .str "5550001111" })) :=
  ⟨by decide,
    updateCustomer_no_self_conflict binaryEnv twoStore 2
      { noUpdateFields with phone_no_primary := .str "5550001111" }
      (makeNewRecord.newRow 2 "MC_2" none { noFields with phone_no_primary := .str "5550001111" })
      (by decide) (by decide) (by decide)⟩

/-! ### What an update writes -/

theorem updateCustomer_not_conflict (env : Env) (st : Store) (id : Nat) (body : UpdateBody)
    (h : (updateCustomer env st id body).1.status ≠ 409) :
    (updateCustomer env st id body).2 = st.updateRows id (updateCustomer.params body) := by
  unfold updateCustomer at h ⊢
  by_cases he : (updateCustomer.errors env st id body).isEmpty = true
  · simp only [he, Bool.not_true, Bool.false_eq_true, if_false]
    split <;> rfl
  · simp [he, Response.status] at h

theorem toSql_orNull (v : JSVal) : (orNull v).toSql = v.toSql := by
  cases v <;> rfl

theorem validatedGender_eq (g : JSVal) :
    validatedGender g
      = (if g = .str "male" ∨ g = .str "female" ∨ g = .str "other" then g else .str "male") := by
  unfold validatedGender
  by_cases h1 : g = .str "male"
  · subst h1; decide
  · by_cases h2 : g = .str "female"
    · subst h2; decide
    · by_cases h3 : g = .str "other"
      · subst h3; decide
      · have e1 : (g == JSVal.str "male") = false := beq_eq_false_iff_ne.2 h1
        have e2 : (g == JSVal.str "female") = false := beq_eq_false_iff_ne.2 h2
        have e3 : (g == JSVal.str "other") = false := beq_eq_false_iff_ne.2 h3
        simp [List.contains, List.elem, h1, h2, h3, e1, e2, e3]

theorem validatedGender_toSql (g : JSVal) :
    (validatedGender g).toSql
      = some (if g = .str "female" then "female" else if g = .str "other" then "other"
          else "male") := by
  rw [validatedGender_eq]
  by_cases h1 : g = .str "male"
  · subst h1; decide
  · by_cases h2 : g = .str "female"
    · subst h2; decide
    · by_cases h3 : g = .str "other"
      · subst h3; decide
      · simp [h1, h2, h3, JSVal.toSql]

/-- C7: for every update request that is not answered with a conflict, the
sixteen values of `params` come from the request alone: each of the fifteen
fields other than the gender is the supplied value, `null` when the field is
omitted, and the gender is the supplied value when it is `male`, `female` or
`other` and `male` otherwise; the store after the call is the store before
with these values written to the rows with the given id, so that every such
row holds, in the fifteen columns, the supplied text or NULL, whatever it
held before. -/
theorem updateCustomer_full_replace (env : Env) (st : Store) (id : Nat) (body : UpdateBody)
    (h : (updateCustomer env st id body).1.status ≠ 409) :
    (updateCustomer.params body).textFields
        = body.textFields.map (fun v => if v = JSVal.undefined then JSVal.null else v)
    ∧ (updateCustomer.params body).gender
        = (if body.gender = .str "male" ∨ body.gender = .str "female"
            ∨ body.gender = .str "other" then body.gender else .str "male")
    ∧ (updateCustomer env st id body).2 = st.updateRows id (updateCustomer.params body)
    ∧ ∀ r ∈ (updateCustomer env st id body).2.customers, r.id = id →
        r.textFields = body.textFields.map JSVal.toSql
        ∧ r.gender = some (if body.gender = .str "female" then "female"
            else if body.gender = .str "other" then "other" else "male") := by
  refine ⟨?_, ?_, updateCustomer_not_conflict env st id body h, ?_⟩
  · simp only [UpdateBody.textFields, updateCustomer.params, orNull, List.map, ne_eq,
      ite_not]
  · simp only [updateCustomer.params]
    exact validatedGender_eq body.gender
  · intro r hr hid
    rw [updateCustomer_not_conflict env st id body h] at hr
    simp only [Store.updateRows, List.mem_map] at hr
    obtain ⟨r0, _, hr0⟩ := hr
    unfold updateCustomer.setRow at hr0
    by_cases h0 : r0.id = id
    · rw [if_pos h0] at hr0
      subst hr0
      refine ⟨?_, ?_⟩
      · simp only [Customer.textFields, UpdateBody.textFields, updateCustomer.params,
          toSql_orNull, List.map]
      · simp only [updateCustomer.params]
        exact validatedGender_toSql body.gender
    · rw [if_neg h0] at hr0
      subst hr0
      exact absurd hid h0

set_option exponentiation.threshold 1100 in
/-- C7 (witness): an update of customer 2 that supplies only its own phone and an
unknown gender is answered 200; the stored comment `call back` becomes NULL
and the gender `male`. -/
theorem updateCustomer_full_replace_witness :
    (plainStore.customers.map (fun c => (c.id, c.comment, c.gender)))
      = [(1, none, none), (2, some "call back", none)]
    ∧ (updateCustomer binaryEnv plainStore 2
        { noUpdateFields with
          phone_no_primary := .str "5550001111", gender := .str "robot" }).1 = .updated
    ∧ (updateCustomer binaryEnv plainStore 2
        { noUpdateFields with
          phone_no_primary := .str "5550001111", gender := .str "robot" }).2
      = plainStore.updateRows 2 (updateCustomer.params
          { noUpdateFields with
            phone_no_primary := .str "5550001111", gender := .str "robot" })
    ∧ ((updateCustomer binaryEnv plainStore 2
        { noUpdateFields with
          phone_no_primary := .str "5550001111", gender := .str "robot" }).2.customers.map
          (fun c => (c.id, c.comment, c.gender)))
      = [(1, none, none), (2, none, some "male")] :=
  ⟨by decide, by decide,
    (updateCustomer_full_replace binaryEnv plainStore 2
      { noUpdateFields with phone_no_primary := .str "5550001111", gender := .str "robot" }
      (by decide)).2.2.1,
    by decide⟩

/-! ### The history request -/

/-- C8 (counterexample): a history request with an internal id, a
`C_unique_id` and an empty `changes` array is not rejected: it is answered 200
with the history of the customer. -/
theorem historyCustomer_accepts_empty_changes :
    historyCustomer emptyStore (fun i => i)
        { customerId := .num 1, C_unique_id := .str "MC_1", changes := .array [] }
      = (.history [], emptyStore)
    ∧ (Response.history []).status = 200 := by
  decide

/-- C8 (amended): `historyCustomer` answers 400, and leaves both tables as
they were, whenever `customerId` is falsy, `C_unique_id` is falsy or `changes`
is not an array; with an internal id, a `C_unique_id` and an empty `changes`
array the request is not rejected: it is answered 200 with the history of the
customer and no audit row is written. -/
theorem historyCustomer_rejects_incomplete (st : Store) (now : Nat → Nat)
    (body : HistoryBody) :
    ((body.customerId.truthy = false ∨ body.C_unique_id.truthy = false
          ∨ body.changes.isArray = false) → historyCustomer st now body = (.invalid, st))
    ∧ ∀ n : Nat, body.customerId = .num n → n ≠ 0 → body.C_unique_id.truthy = true →
        body.changes = .array [] →
        historyCustomer st now body = (.history (getChangeHistory st.updates_customer n), st) := by
  constructor
  · intro hg
    unfold historyCustomer
    have : (!body.customerId.truthy || !body.C_unique_id.truthy || !body.changes.isArray)
        = true := by
      rcases hg with h | h | h <;> simp [h]
    rw [if_pos this]
  · intro n hn hn0 hu hch
    unfold historyCustomer
    have : (!body.customerId.truthy || !body.C_unique_id.truthy || !body.changes.isArray)
        = false := by simp [hn, hch, hu, IdVal.truthy, ChangesVal.isArray, hn0]
    rw [if_neg (by simp [this])]
    simp only [hn, hch, insertChangeLog]

set_option exponentiation.threshold 1100 in
/-- C8 (witness): on the two-customer store, a history request whose `changes` is
not an array is answered 400, and one whose `changes` is the empty array is
answered 200; the store is as before in both. -/
theorem historyCustomer_rejects_incomplete_witness :
    historyCustomer plainStore (fun i => i)
        { customerId := .num 1, C_unique_id := .str "MC_1", changes := .notArray }
      = (.invalid, plainStore)
    ∧ historyCustomer plainStore (fun i => i)
        { customerId := .num 1, C_unique_id := .str "MC_1", changes := .array [] }
      = (.history [], plainStore) :=
  ⟨(historyCustomer_rejects_incomplete plainStore (fun i => i)
      { customerId := .num 1, C_unique_id := .str "MC_1", changes := .notArray }).1
      (Or.inr (Or.inr rfl)),
    ((historyCustomer_rejects_incomplete plainStore (fun i => i)
      { customerId := .num 1, C_unique_id := .str "MC_1", changes := .array [] }).2
      1 rfl (by decide) rfl rfl).trans (by decide)⟩

/-- A history request whose second change is `null`: the audit row of the first
change is written, the destructuring of the second throws, and the answer is
500 with that row left in the table. -/
theorem historyCustomer_partial_write :
    (historyCustomer emptyStore (fun i => i)
        { customerId := .num 1, C_unique_id := .str "MC_1"
          changes := .array [.tuple (.str "comment") (.str "x") (.str "y"), .nullish] }).1
      = .serverError
    ∧ (historyCustomer emptyStore (fun i => i)
        { customerId := .num 1, C_unique_id := .str "MC_1"
          changes := .array [.tuple (.str "comment") (.str "x") (.str "y"), .nullish]
        }).2.updates_customer
      = [{ customer_id := 1, C_unique_id := some "MC_1", field := some "comment"
           old_value := some "x", new_value := some "y", changed_at := 0 }] := by
  decide

/-! ### Rejected requests -/

theorem makeNewRecord_of_errors (env : Env) (st : Store) (body : NewRecordBody)
    (h : makeNewRecord.errors env st body ≠ []) :
    makeNewRecord env st body = (.conflict (makeNewRecord.errors env st body), st) := by
  unfold makeNewRecord
  have : (makeNewRecord.errors env st body).isEmpty = false := by
    cases he : makeNewRecord.errors env st body with
    | nil => exact absurd he h
    | cons a l => rfl
  simp [this]

theorem makeNewRecord_conflict_inv (env : Env) (st : Store) (body : NewRecordBody)
    (errors : List String) (h : (makeNewRecord env st body).1 = .conflict errors) :
    errors = makeNewRecord.errors env st body ∧ errors ≠ []
    ∧ (makeNewRecord env st body).2 = st := by
  by_cases he : makeNewRecord.errors env st body = []
  · exfalso
    unfold makeNewRecord at h
    simp only [he, List.isEmpty_nil, Bool.not_true, Bool.false_eq_true, if_false] at h
    split at h
    · simp at h
    · split at h <;> simp at h
  · rw [makeNewRecord_of_errors env st body he] at h ⊢
    simp only [Response.conflict.injEq] at h
    exact ⟨h.symm, h ▸ he, rfl⟩

theorem updateCustomer_conflict_inv (env : Env) (st : Store) (id : Nat) (body : UpdateBody)
    (errors : List String) (h : (updateCustomer env st id body).1 = .conflict errors) :
    errors = updateCustomer.errors env st id body ∧ errors ≠ []
    ∧ (updateCustomer env st id body).2 = st := by
  unfold updateCustomer at h ⊢
  cases he : updateCustomer.errors env st id body with
  | nil =>
    simp only [he, List.isEmpty_nil, Bool.not_true, Bool.false_eq_true, if_false] at h
    split at h <;> simp at h
  | cons a l =>
    simp only [he, List.isEmpty_cons, Bool.not_false, if_true] at h ⊢
    simp only [Response.conflict.injEq] at h
    exact ⟨h.symm, by rw [← h]; simp, trivial⟩

/-- C9: for every store and every create request whose primary phone is
`undefined`, `null` or the empty string, `makeNewRecord` answers with the
error list made of `Primary phone number is required.` followed by every
message of the conflict check, and leaves the store as it was. -/
theorem makeNewRecord_missing_primary (env : Env) (st : Store) (body : NewRecordBody)
    (h : body.phone_no_primary = .undefined ∨ body.phone_no_primary = .null
      ∨ body.phone_no_primary = .str "") :
    makeNewRecord env st body
      = (.conflict ("Primary phone number is required."
          :: conflictMessages "" (makeNewRecord.extractNumber body.whatsapp_num) body.email_id
              (makeNewRecord.existRecords env st body)), st) := by
  have herr : makeNewRecord.errors env st body
      = "Primary phone number is required."
          :: conflictMessages "" (makeNewRecord.extractNumber body.whatsapp_num) body.email_id
              (makeNewRecord.existRecords env st body) := by
    unfold makeNewRecord.errors
    rcases h with h | h | h <;> rw [h] <;> rfl
  have := makeNewRecord_of_errors env st body (by rw [herr]; simp)
  rw [this, herr]

set_option exponentiation.threshold 1100 in
/-- C9 (witness): a create with no primary phone and the WhatsApp number of customer 1: both
the validation message and the conflict message are returned. -/
theorem makeNewRecord_missing_primary_witness :
    makeNewRecord binaryEnv plainStore { noFields with whatsapp_num := .str "9123456780" }
      = (.conflict ["Primary phone number is required.",
          "The phone number in the Whatsapp field is already in use!!"], plainStore) :=
  (makeNewRecord_missing_primary binaryEnv plainStore
    { noFields with whatsapp_num := .str "9123456780" } (Or.inl rfl)).trans (by decide)

/-- C10: whenever `makeNewRecord` or `updateCustomer` answers with a conflict,
the error list is not empty and the store after the call is the store before
the call: no INSERT and no UPDATE is executed. -/
theorem conflict_leaves_store (env : Env) (st : Store) (errors : List String) :
    (∀ body : NewRecordBody, (makeNewRecord env st body).1 = .conflict errors →
      errors ≠ [] ∧ (makeNewRecord env st body).2 = st)
    ∧ (∀ (id : Nat) (body : UpdateBody), (updateCustomer env st id body).1 = .conflict errors →
      errors ≠ [] ∧ (updateCustomer env st id body).2 = st) :=
  ⟨fun body h => (makeNewRecord_conflict_inv env st body errors h).2,
    fun id body h => (updateCustomer_conflict_inv env st id body errors h).2⟩

set_option exponentiation.threshold 1100 in
/-- C10 (witness): a create and an update of customer 2 with the primary phone of
customer 1 are both answered with the primary-phone conflict, and the store is as before. -/
theorem conflict_leaves_store_witness :
    ((makeNewRecord binaryEnv plainStore
        { noFields with phone_no_primary := .str "98765 43210" }).1
      = .conflict ["The phone number in the Primary field is already in use!!"]
      ∧ (makeNewRecord binaryEnv plainStore
        { noFields with phone_no_primary := .str "98765 43210" }).2 = plainStore)
    ∧ ((updateCustomer binaryEnv plainStore 2
        { noUpdateFields with phone_no_primary := .str "+91 9876543210" }).1
      = .conflict ["The phone number in the Primary field is already in use!!"]
      ∧ (updateCustomer binaryEnv plainStore 2
        { noUpdateFields with phone_no_primary := .str "+91 9876543210" }).2 = plainStore) :=
  ⟨⟨by decide,
      ((conflict_leaves_store binaryEnv plainStore
        ["The phone number in the Primary field is already in use!!"]).1
        { noFields with phone_no_primary := .str "98765 43210" } (by decide)).2⟩,
    ⟨by decide,
      ((conflict_leaves_store binaryEnv plainStore
        ["The phone number in the Primary field is already in use!!"]).2 2
        { noUpdateFields with phone_no_primary := .str "+91 9876543210" } (by decide)).2⟩⟩

/-! ### The identifier sequencer -/

theorem digitChar_toNat (k : Nat) (h : k < 10) : (Nat.digitChar k).toNat = 48 + k := by
  interval_cases k <;> rfl

theorem decDigits_lt (n : Nat) (h : n < 10) : decDigits n = [Nat.digitChar n] := by
  rw [decDigits]; simp [h]

theorem decDigits_ge (n : Nat) (h : 10 ≤ n) :
    decDigits n = decDigits (n / 10) ++ [Nat.digitChar (n % 10)] := by
  rw [decDigits]; simp [Nat.not_lt.2 h]

theorem toDigitsCore_eq (f : Nat) : ∀ (n : Nat) (acc : List Char), n < f →
    Nat.toDigitsCore 10 f n acc = decDigits n ++ acc := by
  induction f with
  | zero => intro n acc h; omega
  | succ f ih =>
    intro n acc h
    simp only [Nat.toDigitsCore]
    by_cases h0 : n / 10 = 0
    · have hlt : n < 10 := by omega
      simp only [h0, if_true]
      rw [decDigits_lt n hlt, Nat.mod_eq_of_lt hlt]; rfl
    · have hge : 10 ≤ n := by omega
      simp only [h0, if_false]
      rw [ih (n / 10) _ (by omega), decDigits_ge n hge, List.append_assoc]; rfl

theorem toDigits_eq (n : Nat) : Nat.toDigits 10 n = decDigits n := by
  unfold Nat.toDigits
  rw [toDigitsCore_eq (n + 1) n [] (by omega), List.append_nil]

theorem decDigits_digit (n : Nat) : ∀ c ∈ decDigits n, 48 ≤ c.toNat ∧ c.toNat ≤ 57 := by
  induction n using Nat.strong_induction_on with
  | _ n ih =>
    intro c hc
    by_cases h : n < 10
    · rw [decDigits_lt n h] at hc
      simp only [List.mem_singleton] at hc
      rw [hc, digitChar_toNat n h]; omega
    · rw [decDigits_ge n (by omega)] at hc
      rcases List.mem_append.1 hc with hc | hc
      · exact ih (n / 10) (by omega) c hc
      · simp only [List.mem_singleton] at hc
        rw [hc, digitChar_toNat _ (Nat.mod_lt _ (by omega))]; omega

theorem decDigits_ne_nil (n : Nat) : decDigits n ≠ [] := by
  by_cases h : n < 10
  · rw [decDigits_lt n h]; simp
  · rw [decDigits_ge n (by omega)]; simp

theorem digitValue_digit (c : Char) (h : 48 ≤ c.toNat ∧ c.toNat ≤ 57) :
    digitValue 10 c = some (c.toNat - 48) := by
  unfold digitValue; simp [h]

theorem scanDigits_digits (l : List Char) (hl : ∀ c ∈ l, 48 ≤ c.toNat ∧ c.toNat ≤ 57) :
    ∀ (acc : Nat) (seen : Bool), scanDigits 10 l acc seen
      = (l.foldl (fun a c => a * 10 + (c.toNat - 48)) acc, seen || !l.isEmpty) := by
  induction l with
  | nil => intro acc seen; simp [scanDigits]
  | cons c t ih =>
    intro acc seen
    simp only [scanDigits, digitValue_digit c (hl c (List.mem_cons_self _ _))]
    rw [ih (fun d hd => hl d (List.mem_cons_of_mem _ hd))]
    simp

theorem foldl_decDigits (n : Nat) :
    (decDigits n).foldl (fun a c => a * 10 + (c.toNat - 48)) 0 = n := by
  induction n using Nat.strong_induction_on with
  | _ n ih =>
    by_cases h : n < 10
    · rw [decDigits_lt n h]
      simp [digitChar_toNat n h]
    · rw [decDigits_ge n (by omega), List.foldl_append, ih (n / 10) (by omega)]
      simp only [List.foldl_cons, List.foldl_nil]
      rw [digitChar_toNat _ (Nat.mod_lt _ (by omega))]
      omega

theorem splitUnderscore_none (l : List Char) (h : '_' ∉ l) : splitUnderscore l = [l] := by
  induction l with
  | nil => rfl
  | cons c t ih =>
    have hc : c ≠ '_' := fun e => h (by simp [e])
    have ht : '_' ∉ t := fun e => h (List.mem_cons_of_mem _ e)
    simp only [splitUnderscore, hc, if_false, ih ht]

theorem excessBits_small (n : Nat) (h : n < 2 ^ 53) : excessBits n n = 0 := by
  cases n with
  | zero => rfl
  | succ k => simp only [excessBits, h, if_true]

theorem roundDouble_small (n : Nat) (h : n < 2 ^ 53) : roundDouble n = n := by
  unfold roundDouble
  simp [excessBits_small n h, Nat.mod_one]

set_option exponentiation.threshold 1100 in
theorem toNumber_small (n : Nat) (h : n < 2 ^ 53) : toNumber (n : Int) = .fin n := by
  unfold toNumber
  have h1 : ((n : Int)).natAbs = n := Int.natAbs_ofNat n
  have h2 : ¬ (2 ^ 1024 ≤ n) := by
    have : (2 : Nat) ^ 53 < 2 ^ 1024 := Nat.pow_lt_pow_right (by decide) (by decide)
    omega
  have h3 : ¬ ((n : Int) < 0) := by omega
  simp only [h1, roundDouble_small n h, h2, h3, if_false]

theorem not_ws_of_digit (c : Char) (h : 48 ≤ c.toNat ∧ c.toNat ≤ 57) :
    isJSWhiteSpace c = false := by
  unfold isJSWhiteSpace
  simp only [Bool.or_eq_false_iff, beq_eq_false_iff_ne, Bool.and_eq_false_imp,
    decide_eq_true_eq, decide_eq_false_iff_not]
  omega

theorem parseInt_digits (c : Char) (t : List Char)
    (h : ∀ d ∈ c :: t, 48 ≤ d.toNat ∧ d.toNat ≤ 57) :
    parseInt (some (c :: t))
      = toNumber (((c :: t).foldl (fun a d => a * 10 + (d.toNat - 48)) 0 : Nat) : Int) := by
  have hc := h c (List.mem_cons_self _ _)
  have hscan := scanDigits_digits (c :: t) h 0 false
  have hdrop : (c :: t).dropWhile isJSWhiteSpace = c :: t := by
    simp [List.dropWhile, not_ws_of_digit c hc]
  have hminus : c ≠ '-' := by intro e; rw [e] at hc; revert hc; decide
  have hplus : c ≠ '+' := by intro e; rw [e] at hc; revert hc; decide
  have hun : parseUnsigned false (c :: t)
      = toNumber (((c :: t).foldl (fun a d => a * 10 + (d.toNat - 48)) 0 : Nat) : Int) := by
    have hpd : parseDigits false 10 (c :: t)
        = toNumber (((c :: t).foldl (fun a d => a * 10 + (d.toNat - 48)) 0 : Nat) : Int) := by
      unfold parseDigits
      simp [hscan]
    unfold parseUnsigned
    split
    · rename_i rest heq
      have hx := h 'x' (by rw [heq]; simp)
      exact absurd hx (by decide)
    · rename_i rest heq
      have hx := h 'X' (by rw [heq]; simp)
      exact absurd hx (by decide)
    · exact hpd
  unfold parseInt
  simp only [hdrop]
  split
  · rename_i rest heq
    simp only [List.cons.injEq] at heq
    exact absurd heq.1 hminus
  · rename_i rest heq
    simp only [List.cons.injEq] at heq
    exact absurd heq.1 hplus
  · exact hun

theorem parseInt_decDigits (n : Nat) : parseInt (some (decDigits n)) = toNumber (n : Int) := by
  cases hd : decDigits n with
  | nil => exact absurd hd (decDigits_ne_nil n)
  | cons c t =>
    rw [parseInt_digits c t (by rw [← hd]; exact decDigits_digit n), ← hd, foldl_decDigits]

theorem underscore_not_mem_decDigits (n : Nat) : '_' ∉ decDigits n := by
  intro h
  have := decDigits_digit n '_' h
  revert this; decide

theorem mc_eq (n : Nat) : mc n = String.mk ('M' :: 'C' :: '_' :: decDigits n) := by
  unfold mc; rw [toDigits_eq]

theorem split_mc (n : Nat) :
    (splitUnderscore (mc n).data).get? 1 = some (decDigits n) := by
  rw [mc_eq]
  simp [splitUnderscore, splitUnderscore_none _ (underscore_not_mem_decDigits n)]

set_option exponentiation.threshold 1100 in
theorem addOne_toString (n : Nat) (h : n < 2 ^ 53) :
    (JSNum.fin (n : Int)).addOne.toString = decDigits (n + 1) := by
  by_cases h2 : n + 1 < 2 ^ 53
  · have : ((n : Int) + 1) = ((n + 1 : Nat) : Int) := by push_cast; rfl
    simp only [JSNum.addOne]
    rw [this, toNumber_small (n + 1) h2]
    have h3 : ¬ (((n + 1 : Nat) : Int) < 0) := by omega
    simp only [JSNum.toString, h3, if_false, Int.natAbs_ofNat, natToString, h2, if_true]
    exact toDigits_eq (n + 1)
  · have hn : n = 2 ^ 53 - 1 := by omega
    subst hn
    rw [← toDigits_eq]
    decide

/-- The sequencer on `MC_<n>`, for `n` below `2 ^ 53`. -/
theorem nextUniqueId_mc (n : Nat) (h : n < 2 ^ 53) : nextUniqueId (some (mc n)) = mc (n + 1) := by
  unfold nextUniqueId
  simp only [split_mc, parseInt_decDigits, toNumber_small n h, addOne_toString n h]
  rw [mc_eq]

theorem makeNewRecord_of_no_errors (env : Env) (st : Store) (body : NewRecordBody)
    (dob : Option String) (x : String)
    (herr : makeNewRecord.errors env st body = [])
    (hdob : formattedDOB env body.date_of_birth = some dob)
    (hnext : fetchNextUniqueId st = some x) :
    makeNewRecord env st body = (.created x, st.insertCustomer x dob body) := by
  unfold makeNewRecord
  simp only [herr, List.isEmpty_nil, Bool.not_true, Bool.false_eq_true, if_false, hnext, hdob]

set_option exponentiation.threshold 1100 in
/-- C5 (counterexample): when the only customer has the `C_unique_id`
`MC_9007199254740992`, numbered `2 ^ 53`, a successful create is given the same
identifier again, not the one numbered `2 ^ 53 + 1`. -/
theorem makeNewRecord_next_id_stuck :
    (latestCustomer bigStore.customers).map (fun c => c.C_unique_id)
      = some (some (mc 9007199254740992))
    ∧ (makeNewRecord binaryEnv bigStore
        { noFields with phone_no_primary := .str "5550001111" }).1
      = .created (mc 9007199254740992)
    ∧ mc 9007199254740992 ≠ mc (9007199254740992 + 1) := by
  decide

/-- C5 (amended): a create request with no validation error or conflict and a
valid date of birth is answered 201; when the store holds no customer it is
assigned `MC_1`, and for every `n` below `2 ^ 53`, when the customer with the
highest internal id has the `C_unique_id` `MC_<n>`, it is assigned `MC_<n+1>`:
the answer carries that identifier and the inserted row holds it. -/
theorem makeNewRecord_next_unique_id (env : Env) (st : Store) (body : NewRecordBody)
    (dob : Option String)
    (herr : makeNewRecord.errors env st body = [])
    (hdob : formattedDOB env body.date_of_birth = some dob) :
    (st.customers = [] →
      makeNewRecord env st body = (.created "MC_1", st.insertCustomer "MC_1" dob body)
      ∧ (makeNewRecord env st body).2.customers
        = [makeNewRecord.newRow st.nextId "MC_1" dob body])
    ∧ (∀ (n : Nat) (latest : Customer), n < 2 ^ 53 →
      latestCustomer st.customers = some latest → latest.C_unique_id = some (mc n) →
      makeNewRecord env st body
        = (.created (mc (n + 1)), st.insertCustomer (mc (n + 1)) dob body)
      ∧ (makeNewRecord env st body).2.customers
        = st.customers ++ [makeNewRecord.newRow st.nextId (mc (n + 1)) dob body]) := by
  constructor
  · intro hnil
    have hnext : fetchNextUniqueId st = some "MC_1" := by
      unfold fetchNextUniqueId; rw [hnil]; rfl
    rw [makeNewRecord_of_no_errors env st body dob "MC_1" herr hdob hnext]
    refine ⟨rfl, ?_⟩
    simp [Store.insertCustomer, hnil]
  · intro n latest hn hlatest huid
    have hnext : fetchNextUniqueId st = some (mc (n + 1)) := by
      unfold fetchNextUniqueId
      simp only [hlatest, huid, nextUniqueId_mc n hn]
    rw [makeNewRecord_of_no_errors env st body dob (mc (n + 1)) herr hdob hnext]
    exact ⟨rfl, rfl⟩

set_option exponentiation.threshold 1100 in
/-- C5 (witness): the first create on the empty store is given `MC_1`, and a create
after the customer `MC_115` is given `MC_116`. -/
theorem makeNewRecord_next_unique_id_witness :
    makeNewRecord binaryEnv emptyStore annBody
      = (.created "MC_1", emptyStore.insertCustomer "MC_1" none annBody)
    ∧ makeNewRecord binaryEnv
        { customers := [makeNewRecord.newRow 7 "MC_115" none annBody]
          updates_customer := [], nextId := 8 }
        { noFields with phone_no_primary := .str "5550001111" }
      = (.created "MC_116",
          Store.insertCustomer
            { customers := [makeNewRecord.newRow 7 "MC_115" none annBody]
              updates_customer := [], nextId := 8 }
            "MC_116" none { noFields with phone_no_primary := .str "5550001111" }) :=
  ⟨((makeNewRecord_next_unique_id binaryEnv emptyStore annBody none
      (by decide) (by decide)).1 rfl).1,
    ((makeNewRecord_next_unique_id binaryEnv
      { customers := [makeNewRecord.newRow 7 "MC_115" none annBody]
        updates_customer := [], nextId := 8 }
      { noFields with phone_no_primary := .str "5550001111" } none
      (by decide) (by decide)).2 115 (makeNewRecord.newRow 7 "MC_115" none annBody)
      (by decide) (by decide) (by decide)).1⟩

/-! ### Sequences of creates and deletes -/

theorem mc_injective (i j : Nat) (h : mc i = mc j) : i = j := by
  rw [mc_eq, mc_eq] at h
  have hd : decDigits i = decDigits j := by
    have := congrArg String.data h
    simpa using this
  rw [← foldl_decDigits i, ← foldl_decDigits j, hd]

theorem latestCustomer_append (cs : List Customer) (c : Customer) :
    latestCustomer (cs ++ [c])
      = (match latestCustomer cs with
        | none => some c
        | some b => if b.id < c.id then some c else some b) := by
  unfold latestCustomer
  rw [List.foldl_append]
  rfl

theorem latestCustomer_mem (cs : List Customer) :
    ∀ b, latestCustomer cs = some b → b ∈ cs := by
  induction cs using List.reverseRecOn with
  | nil => intro b h; simp [latestCustomer] at h
  | append_singleton l a ih =>
    intro b h
    rw [latestCustomer_append] at h
    cases hl : latestCustomer l with
    | none =>
      simp only [hl, Option.some.injEq] at h
      simp [h]
    | some b' =>
      simp only [hl] at h
      split at h
      · simp only [Option.some.injEq] at h; simp [h]
      · simp only [Option.some.injEq] at h
        rw [← h]
        exact List.mem_append_left _ (ih b' hl)

theorem latestCustomer_last (l : List Customer) (a : Customer)
    (h : (l ++ [a]).Pairwise Before) : latestCustomer (l ++ [a]) = some a := by
  rw [latestCustomer_append]
  cases hl : latestCustomer l with
  | none => rfl
  | some b =>
    have hb : b ∈ l := latestCustomer_mem l b hl
    have hba : Before b a := by
      rw [List.pairwise_append] at h
      exact h.2.2 b hb a (by simp)
    simp [hba.1]

theorem makeNewRecord_cases (env : Env) (st : Store) (body : NewRecordBody) :
    (makeNewRecord env st body).2 = st
    ∨ ∃ (x : String) (dob : Option String), fetchNextUniqueId st = some x
        ∧ makeNewRecord env st body = (.created x, st.insertCustomer x dob body) := by
  by_cases he : makeNewRecord.errors env st body = []
  · cases hx : fetchNextUniqueId st with
    | none =>
      left; unfold makeNewRecord
      simp only [he, List.isEmpty_nil, Bool.not_true, Bool.false_eq_true, if_false, hx]
    | some x =>
      cases hdob : formattedDOB env body.date_of_birth with
      | none =>
        left; unfold makeNewRecord
        simp only [he, List.isEmpty_nil, Bool.not_true, Bool.false_eq_true, if_false, hx, hdob]
      | some dob =>
        right
        exact ⟨x, dob, rfl, makeNewRecord_of_no_errors env st body dob x he hdob hx⟩
  · left
    rw [makeNewRecord_of_errors env st body he]

theorem fetchNextUniqueId_sequenced (st : Store) (m : Nat) (hs : Sequenced st m)
    (hm : m < 2 ^ 53) :
    ∃ k : Nat, fetchNextUniqueId st = some (mc k) ∧ k ≤ m + 1
      ∧ ∀ c ∈ st.customers, ∃ j : Nat, j < k ∧ c.C_unique_id = some (mc j) := by
  obtain ⟨hp, hb⟩ := hs
  rcases List.eq_nil_or_concat st.customers with hnil | ⟨l, a, hla⟩
  · refine ⟨1, ?_, by omega, ?_⟩
    · unfold fetchNextUniqueId; rw [hnil]; rfl
    · intro c hc; rw [hnil] at hc; simp at hc
  · have hla2 : st.customers = l ++ [a] := by rw [hla]; simp
    obtain ⟨_, k, hk, huid⟩ := hb a (by rw [hla2]; simp)
    have hlast : latestCustomer st.customers = some a := by
      rw [hla2]; rw [hla2] at hp; exact latestCustomer_last l a hp
    refine ⟨k + 1, ?_, by omega, ?_⟩
    · unfold fetchNextUniqueId
      simp only [hlast, huid, nextUniqueId_mc k (by omega)]
    · intro c hc
      rw [hla2] at hc hp
      rcases List.mem_append.1 hc with hc | hc
      · rw [List.pairwise_append] at hp
        obtain ⟨_, i, j, hij, hci, haj⟩ := hp.2.2 c hc a (by simp)
        have hjk : j = k := mc_injective j k (by
          have := haj.symm.trans huid
          simpa using this)
        exact ⟨i, by omega, hci⟩
      · simp only [List.mem_singleton] at hc
        exact ⟨k, by omega, by rw [hc]; exact huid⟩

theorem sequenced_insert (st : Store) (m k : Nat) (dob : Option String) (body : NewRecordBody)
    (hs : Sequenced st m) (hk : k ≤ m + 1)
    (hlt : ∀ c ∈ st.customers, ∃ j : Nat, j < k ∧ c.C_unique_id = some (mc j)) :
    Sequenced (st.insertCustomer (mc k) dob body) (m + 1) := by
  obtain ⟨hp, hb⟩ := hs
  constructor
  · simp only [Store.insertCustomer]
    rw [List.pairwise_append]
    refine ⟨hp, List.pairwise_singleton _ _, ?_⟩
    intro c hc r hr
    simp only [List.mem_singleton] at hr
    subst hr
    obtain ⟨j, hj, hcj⟩ := hlt c hc
    exact ⟨(hb c hc).1, j, k, hj, hcj, rfl⟩
  · intro c hc
    simp only [Store.insertCustomer] at hc ⊢
    rcases List.mem_append.1 hc with hc | hc
    · obtain ⟨hid, j, hj, hcj⟩ := hb c hc
      exact ⟨by omega, j, by omega, hcj⟩
    · simp only [List.mem_singleton] at hc
      subst hc
      exact ⟨by simp [makeNewRecord.newRow], k, hk, rfl⟩

theorem sequenced_mono (st : Store) (m n : Nat) (hs : Sequenced st m) (hmn : m ≤ n) :
    Sequenced st n :=
  ⟨hs.1, fun c hc =>
    let ⟨hid, k, hk, hu⟩ := hs.2 c hc
    ⟨hid, k, by omega, hu⟩⟩

theorem sequenced_step (env : Env) (st : Store) (m : Nat) (call : Call)
    (hs : Sequenced st m) (hm : m < 2 ^ 53) : Sequenced (step env st call).2 (m + 1) := by
  cases call with
  | create body =>
    simp only [step]
    rcases makeNewRecord_cases env st body with h | ⟨x, dob, hx, h⟩
    · rw [h]; exact sequenced_mono st m (m + 1) hs (by omega)
    · obtain ⟨k, hk, hkm, hlt⟩ := fetchNextUniqueId_sequenced st m hs hm
      have hxk : x = mc k := by
        have := hx.symm.trans hk
        simpa using this
      rw [h, hxk]
      exact sequenced_insert st m k dob body hs hkm hlt
  | delete customerId =>
    cases customerId with
    | none => exact sequenced_mono st m (m + 1) hs (by omega)
    | some id =>
      simp only [step, deleteCustomer, deleteCustomerRecord, deleteCustomerUpdates]
      refine ⟨List.Pairwise.filter _ hs.1, ?_⟩
      intro c hc
      have hc2 : c ∈ st.customers := (List.mem_filter.1 hc).1
      obtain ⟨hid, k, hk, hu⟩ := hs.2 c hc2
      exact ⟨hid, k, by omega, hu⟩

theorem sequenced_run (env : Env) (calls : List Call) :
    ∀ (st : Store) (m : Nat), Sequenced st m → m + calls.length ≤ 2 ^ 53 →
      Sequenced (run env st calls).2 (m + calls.length) := by
  induction calls with
  | nil => intro st m hs _; exact hs
  | cons c cs ih =>
    intro st m hs hlen
    simp only [List.length_cons] at hlen ⊢
    simp only [run]
    have := ih (step env st c).2 (m + 1) (sequenced_step env st m c hs (by omega)) (by omega)
    rw [show m + (cs.length + 1) = m + 1 + cs.length from by omega]
    exact this

theorem sequenced_empty : Sequenced emptyStore 0 :=
  ⟨List.Pairwise.nil, fun c hc => by simp [emptyStore] at hc⟩

set_option exponentiation.threshold 1100 in
/-- C6 (counterexample): create a customer, delete it, create another: both
creates succeed and both are assigned `MC_1`. -/
theorem sequence_reuses_deleted_id :
    (run binaryEnv emptyStore [.create annBody, .delete (some 1), .create annBody]).1
      = [.created "MC_1", .deleted, .created "MC_1"]
    ∧ assigned (run binaryEnv emptyStore
        [.create annBody, .delete (some 1), .create annBody]).1 = ["MC_1", "MC_1"]
    ∧ ¬ (assigned (run binaryEnv emptyStore
        [.create annBody, .delete (some 1), .create annBody]).1).Nodup := by
  decide

/-- C6 (amended): after every sequence of fewer than `2 ^ 53` creates and
deletes on the empty store, the customers in the store are in the order of
their creation, with internal ids and identifier numbers both strictly
increasing, and a create request with no validation error or conflict and a
valid date of birth is answered 201 with an identifier `MC_<k>` whose number is
greater than that of every customer in the store, so that it differs from
the identifier of each of them. -/
theorem sequence_next_id_fresh (env : Env) (calls : List Call) (body : NewRecordBody)
    (dob : Option String) (hlen : calls.length < 2 ^ 53)
    (herr : makeNewRecord.errors env (run env emptyStore calls).2 body = [])
    (hdob : formattedDOB env body.date_of_birth = some dob) :
    (run env emptyStore calls).2.customers.Pairwise Before
    ∧ ∃ k : Nat,
      makeNewRecord env (run env emptyStore calls).2 body
        = (.created (mc k), (run env emptyStore calls).2.insertCustomer (mc k) dob body)
      ∧ (∀ c ∈ (run env emptyStore calls).2.customers,
          ∃ j : Nat, j < k ∧ c.C_unique_id = some (mc j))
      ∧ ∀ c ∈ (run env emptyStore calls).2.customers, c.C_unique_id ≠ some (mc k) := by
  have hs : Sequenced (run env emptyStore calls).2 calls.length := by
    have := sequenced_run env calls emptyStore 0 sequenced_empty (by omega)
    simpa using this
  obtain ⟨k, hk, _, hlt⟩ :=
    fetchNextUniqueId_sequenced (run env emptyStore calls).2 calls.length hs hlen
  refine ⟨hs.1, k, makeNewRecord_of_no_errors env _ body dob (mc k) herr hdob hk, hlt, ?_⟩
  intro c hc heq
  obtain ⟨j, hj, hcj⟩ := hlt c hc
  have : mc j = mc k := by
    have := hcj.symm.trans heq
    simpa using this
  have := mc_injective j k this
  omega

set_option exponentiation.threshold 1100 in
/-- C6 (witness): after a create, the delete of that customer and a second create,
the store holds one customer, with the identifier `MC_1`, and the next create
is given `MC_2`. -/
theorem sequence_next_id_fresh_witness :
    (run binaryEnv emptyStore
        [.create annBody, .delete (some 1), .create annBody]).2.customers.map
          (fun c => (c.id, c.C_unique_id)) = [(2, some "MC_1")]
    ∧ (makeNewRecord binaryEnv
          (run binaryEnv emptyStore [.create annBody, .delete (some 1), .create annBody]).2
          { noFields with phone_no_primary := .str "5550001111" }).1 = .created "MC_2"
    ∧ ∃ k : Nat,
      makeNewRecord binaryEnv
          (run binaryEnv emptyStore [.create annBody, .delete (some 1), .create annBody]).2
          { noFields with phone_no_primary := .str "5550001111" }
        = (.created (mc k),
            (run binaryEnv emptyStore
              [.create annBody, .delete (some 1), .create annBody]).2.insertCustomer (mc k) none
              { noFields with phone_no_primary := .str "5550001111" })
      ∧ (∀ c ∈ (run binaryEnv emptyStore
            [.create annBody, .delete (some 1), .create annBody]).2.customers,
          ∃ j : Nat, j < k ∧ c.C_unique_id = some (mc j))
      ∧ ∀ c ∈ (run binaryEnv emptyStore
            [.create annBody, .delete (some 1), .create annBody]).2.customers,
          c.C_unique_id ≠ some (mc k) :=
  ⟨by decide, by decide,
    (sequence_next_id_fresh binaryEnv [.create annBody, .delete (some 1), .create annBody]
      { noFields with phone_no_primary := .str "5550001111" } none
      (by decide) (by decide) (by decide)).2⟩

/-! ### The gender of a new customer -/

set_option exponentiation.threshold 1100 in
/-- C11 (the code at the failing input): a create request without a gender is
answered 201 and its row holds NULL in the gender column, and a create
request with the gender `robot` is answered 201 and its row holds `robot`:
`makeNewRecord` binds the gender as submitted, while `updateCustomer` writes
`male` for both. -/
theorem makeNewRecord_gender_as_submitted :
    (makeNewRecord binaryEnv emptyStore annBody).1 = .created "MC_1"
    ∧ (makeNewRecord binaryEnv emptyStore annBody).2.customers.map (fun c => c.gender) = [none]
    ∧ (makeNewRecord binaryEnv emptyStore { annBody with gender := .str "robot" }).1
      = .created "MC_1"
    ∧ (makeNewRecord binaryEnv emptyStore
        { annBody with gender := .str "robot" }).2.customers.map (fun c => c.gender)
      = [some "robot"]
    ∧ validatedGender .undefined = .str "male"
    ∧ validatedGender (.str "robot") = .str "male" := by
  decide

/-! ### Deleting a customer -/

theorem deleteCustomer_customers (st : Store) (c : Nat) :
    (deleteCustomer st (some c)).2.customers
      = st.customers.filter (fun r => !decide (r.id = c)) := rfl

theorem deleteCustomer_updates (st : Store) (c : Nat) :
    (deleteCustomer st (some c)).2.updates_customer
      = st.updates_customer.filter (fun u => !decide (u.customer_id = c)) := rfl

theorem deleteCustomerUpdates_updates (st : Store) (c : Nat) :
    (deleteCustomerUpdates st c).updates_customer
      = st.updates_customer.filter (fun u => !decide (u.customer_id = c)) := rfl

/-- The store after a `deleteCustomer` whose two statements are carried out:
no customer row has the id `c` and no audit row has the `customer_id` `c`,
and the two tables hold exactly the rows of the other customers that they
held before, in the same order. -/
theorem deleteCustomer_final_state (st : Store) (c : Nat) :
    (deleteCustomer st (some c)).1 = .deleted
    ∧ (deleteCustomer st (some c)).2 = deleteCustomerRecord (deleteCustomerUpdates st c) c
    ∧ (deleteCustomerUpdates st c).customers = st.customers
    ∧ (∀ u ∈ (deleteCustomerUpdates st c).updates_customer, u.customer_id ≠ c)
    ∧ (∀ r ∈ (deleteCustomer st (some c)).2.customers, r.id ≠ c)
    ∧ (∀ u ∈ (deleteCustomer st (some c)).2.updates_customer, u.customer_id ≠ c)
    ∧ (deleteCustomer st (some c)).2.customers
      = st.customers.filter (fun r => decide (r.id ≠ c))
    ∧ (deleteCustomer st (some c)).2.updates_customer
      = st.updates_customer.filter (fun u => decide (u.customer_id ≠ c))
    ∧ (∀ r : Customer, r.id ≠ c →
        (r ∈ (deleteCustomer st (some c)).2.customers ↔ r ∈ st.customers))
    ∧ (∀ u : AuditRow, u.customer_id ≠ c →
        (u ∈ (deleteCustomer st (some c)).2.updates_customer ↔ u ∈ st.updates_customer))
    ∧ (deleteCustomer st (some c)).2.nextId = st.nextId := by
  refine ⟨rfl, rfl, rfl, ?_, ?_, ?_, ?_, ?_, ?_, ?_, rfl⟩
  · intro u hu
    rw [deleteCustomerUpdates_updates, List.mem_filter] at hu
    simpa using hu.2
  · intro r hr
    rw [deleteCustomer_customers, List.mem_filter] at hr
    simpa using hr.2
  · intro u hu
    rw [deleteCustomer_updates, List.mem_filter] at hu
    simpa using hu.2
  · rw [deleteCustomer_customers]
    congr 1
    funext r
    by_cases h : r.id = c <;> simp [h]
  · rw [deleteCustomer_updates]
    congr 1
    funext u
    by_cases h : u.customer_id = c <;> simp [h]
  · intro r hr
    rw [deleteCustomer_customers, List.mem_filter]
    simp [hr]
  · intro u hu
    rw [deleteCustomer_updates, List.mem_filter]
    simp [hu]

/-- C12: for every store, every numeric id `c` and every way the storage can
fail, `deleteCustomer` runs the DELETE on `updates_customer` first and the
DELETE on `customers` second: when the first fails nothing is changed, when
the second fails the audit rows of `c` are gone and the customers are as
before, so that in every outcome either the customers are untouched or no
audit row of `c` is left. When both are carried out the answer is 200, no
customer row has the id `c`, no audit row has the `customer_id` `c`, and the
two tables hold exactly the rows of the other customers that they held
before, in the same order. -/
theorem deleteCustomer_audit_rows_first (st : Store) (c : Nat) (ok : Nat → Bool) :
    deleteCustomerWith ok st (some c)
      = (if ok 0 = false then (.serverError, st)
        else if ok 1 = false then (.serverError, deleteCustomerUpdates st c)
        else (.deleted, deleteCustomerRecord (deleteCustomerUpdates st c) c))
    ∧ deleteCustomerWith (fun _ => true) st (some c) = deleteCustomer st (some c)
    ∧ (deleteCustomerUpdates st c).customers = st.customers
    ∧ (∀ u ∈ (deleteCustomerUpdates st c).updates_customer, u.customer_id ≠ c)
    ∧ ((deleteCustomerWith ok st (some c)).2.customers = st.customers
      ∨ ∀ u ∈ (deleteCustomerWith ok st (some c)).2.updates_customer, u.customer_id ≠ c)
    ∧ (deleteCustomer st (some c)).1 = .deleted
    ∧ (∀ r ∈ (deleteCustomer st (some c)).2.customers, r.id ≠ c)
    ∧ (∀ u ∈ (deleteCustomer st (some c)).2.updates_customer, u.customer_id ≠ c)
    ∧ (deleteCustomer st (some c)).2.customers
      = st.customers.filter (fun r => decide (r.id ≠ c))
    ∧ (deleteCustomer st (some c)).2.updates_customer
      = st.updates_customer.filter (fun u => decide (u.customer_id ≠ c))
    ∧ (∀ r : Customer, r.id ≠ c →
        (r ∈ (deleteCustomer st (some c)).2.customers ↔ r ∈ st.customers))
    ∧ (∀ u : AuditRow, u.customer_id ≠ c →
        (u ∈ (deleteCustomer st (some c)).2.updates_customer ↔ u ∈ st.updates_customer))
    ∧ (deleteCustomer st (some c)).2.nextId = st.nextId := by
  obtain ⟨h1, _, h3, h4, h5, h6, h7, h8, h9, h10, h11⟩ := deleteCustomer_final_state st c
  have hcases : deleteCustomerWith ok st (some c)
      = (if ok 0 = false then (.serverError, st)
        else if ok 1 = false then (.serverError, deleteCustomerUpdates st c)
        else (.deleted, deleteCustomerRecord (deleteCustomerUpdates st c) c)) := by
    unfold deleteCustomerWith
    cases h0 : ok 0 <;> cases h1 : ok 1 <;> simp
  refine ⟨hcases, rfl, h3, h4, ?_, h1, h5, h6, h7, h8, h9, h10, h11⟩
  rw [hcases]
  cases h0 : ok 0
  · left; simp
  · cases h1 : ok 1
    · left; simp [h3]
    · right; simpa using h6

set_option exponentiation.threshold 1100 in
/-- C12 (witness): customer 2 has one audit row. When the second DELETE fails the
answer is 500, the audit row is gone and both customers are still there; when
both are carried out only customer 1 is left and no audit row. -/
theorem deleteCustomer_audit_rows_first_witness :
    historyStore.updates_customer.map (fun u => u.customer_id) = [2]
    ∧ deleteCustomerWith (fun i => decide (i = 0)) historyStore (some 2)
      = (.serverError, deleteCustomerUpdates historyStore 2)
    ∧ (deleteCustomerUpdates historyStore 2).updates_customer = []
    ∧ (deleteCustomerUpdates historyStore 2).customers.map (fun r => r.id) = [1, 2]
    ∧ (deleteCustomer historyStore (some 2)).1 = .deleted
    ∧ (deleteCustomer historyStore (some 2)).2.customers.map (fun r => r.id) = [1]
    ∧ (deleteCustomer historyStore (some 2)).2.updates_customer = [] :=
  ⟨by decide,
    (deleteCustomer_audit_rows_first historyStore 2 (fun i => decide (i = 0))).1.trans
      (by decide),
    by decide, by decide, by decide, by decide, by decide⟩

/-! ### The date of birth -/

set_option exponentiation.threshold 1100 in
/-- A create with the date of birth `1990-13-01` is answered 500 and inserts
nothing; with `2023-02-30` the row holds `2023-03-02`, and with `1990-05-17`
the date as given. -/
theorem makeNewRecord_date_of_birth :
    makeNewRecord binaryEnv emptyStore { annBody with date_of_birth := .str "1990-13-01" }
      = (.serverError, emptyStore)
    ∧ (makeNewRecord binaryEnv emptyStore
        { annBody with date_of_birth := .str "2023-02-30" }).2.customers.map
          (fun c => c.date_of_birth) = [some "2023-03-02"]
    ∧ (makeNewRecord binaryEnv emptyStore
        { annBody with date_of_birth := .str "1990-05-17" }).2.customers.map
          (fun c => c.date_of_birth) = [some "1990-05-17"] := by
  decide

end Customers
